import Mathlib

/-!
Shallow embedding of the Vera-Py-Service client core: the JSON-ish wire
values, the schema descriptor (`ActionSchema.to_dict`), the capability
registry (`ActionRegistry.discover`), the client action registry
(`PlugboardClient.add_action` / `add_actions`), the request broker
(`RequestEvent.run`), the inbound event handlers, the receive loop body
(`PlugboardClient.__loop`) and the `connect` guard.  Machine-level Python
features are modelled explicitly: Python exceptions become an explicit
`PyExc` value threaded through `Except`, Python dicts become association
lists with last-write-wins update, and the cooperative scheduling of
`connect` becomes an explicit interleaving of atomic blocks.
-/

namespace VeraPy

/-- A JSON-like value, the payload type of the wire envelope. -/
inductive JValue where
  | null
  | str (s : String)
  | num (n : Int)
  | bool (b : Bool)
  | obj (kvs : List (String × JValue))

/-- Python `d.get(k)` on a string-keyed dict: the bound value, or
`None` (modelled as `JValue.null`) when the key is absent. -/
def dget (d : List (String × JValue)) (k : String) : JValue :=
  match d.find? (fun kv => kv.1 == k) with
  | some kv => kv.2
  | none => JValue.null

/-- Python `k in d` on a string-keyed dict. -/
def dcontains (d : List (String × JValue)) (k : String) : Bool :=
  d.any (fun kv => kv.1 == k)

/-- Python dict lookup `d[k]` as an `Option` (a miss raises `KeyError`). -/
def dictGet? {α : Type} (d : List (String × α)) (k : String) : Option α :=
  (d.find? (fun kv => kv.1 == k)).map (fun kv => kv.2)

/-- Python dict assignment `d[k] = v`: replaces the binding in place when
the key exists, otherwise appends it (insertion order preserved). -/
def dictInsert {α : Type} (d : List (String × α)) (k : String) (v : α) :
    List (String × α) :=
  if d.any (fun kv => kv.1 == k) then
    d.map (fun kv => if kv.1 == k then (k, v) else kv)
  else
    d ++ [(k, v)]

/-! ## Schema descriptor: `ActionSchema.to_dict` (src/core/action_schema.py)

The per-field loop of `to_dict` receives the pydantic `field_schema`
(a JSON dict; the `"default"` key is present exactly when the field
declares a default, whose value may itself be `null`).  The loop first
builds `field_data` with all three keys, putting `None` under
`"default"` when the schema has no such key, and then filters
`field_data` down to `field_info`, dropping the `"default"` key unless
the schema declared one. -/

/-- The `field_data`/`field_info` dict comprehension of
`ActionSchema.to_dict` for one declared field. -/
def field_info (field_schema : List (String × JValue)) : List (String × JValue) :=
  let field_data : List (String × JValue) :=
    [("type", dget field_schema "type"),
     ("description", dget field_schema "description"),
     ("default",
       if dcontains field_schema "default" then dget field_schema "default"
       else JValue.null)]
  field_data.filter (fun kv => kv.1 != "default" || dcontains field_schema "default")

/-- The full per-field dispatch of `ActionSchema.to_dict`: when the
pydantic schema carries a `"$ref"` and the field annotation is itself an
`ActionSchema` subclass (its discriminator, description and recursive
field dict are the `nested` argument), the entry becomes
`{type, description, fields}`; otherwise the plain `field_info` entry is
emitted. -/
def field_entry (field_schema : List (String × JValue))
    (nested : Option (String × String × JValue)) : List (String × JValue) :=
  match nested with
  | some (disc, desc, flds) =>
    if dcontains field_schema "$ref" then
      [("type", JValue.str disc), ("description", JValue.str desc), ("fields", flds)]
    else
      field_info field_schema
  | none => field_info field_schema

/-! ## Capability registry: `ActionRegistry.discover` (src/core/action_registry.py)

A module on disk either loads to its list of classes or raises on
import; `discover` iterates the modules of the namespace directory,
keeps every class whose *direct* declared base (`x.__base__`) equals
the requested kind, and assigns it into the registry dict under its
discriminator.  The `import_module` call sits inside the loop with no
exception handler, so a failing module aborts the whole call. -/

/-- A Python class as the registry sees it: its name, the name of its
direct declared base class, and an optional `discriminator()` override. -/
structure PyClass where
  name : String
  base : Option String
  discOverride : Option String
  deriving Repr, DecidableEq

/-- Embeds `ActionSchema.discriminator`: the override when declared, else the
class's own name (src/core/action_schema.py). -/
def PyClass.discKey (c : PyClass) : String :=
  match c.discOverride with
  | some d => d
  | none => c.name

/-- Embeds `ActionRegistry.valid_action_types` (by base-class name). -/
def valid_action_types : List String := ["ActionSchema", "ActionRunner"]

/-- The module loop of `ActionRegistry.discover`: each module either
loads (`Except.ok` with its classes, in `getmembers` order) or raises on
import, which propagates immediately. -/
def discoverAux (acc : List (String × PyClass)) :
    List (Except String (List PyClass)) → String →
    Except String (List (String × PyClass))
  | [], _ => Except.ok acc
  | Except.error e :: _, _ => Except.error e
  | Except.ok cs :: rest, kind =>
      discoverAux
        ((cs.filter (fun c => c.base == some kind)).foldl
          (fun d c => dictInsert d c.discKey c) acc)
        rest kind

/-- Embeds `ActionRegistry.discover path action_type`: rejects an invalid kind
with `ValueError`, then folds the modules of the directory.  The
directory listing is the `modules` argument; a nonexistent path is the
empty listing. -/
def discover (modules : List (Except String (List PyClass))) (kind : String) :
    Except String (List (String × PyClass)) :=
  if valid_action_types.any (fun k => k == kind) then
    discoverAux [] modules kind
  else
    Except.error ("Invalid action type: " ++ kind)

/-! ## Client action registry: `PlugboardClient.add_action` / `add_actions`
(src/core/plugboard_client.py) -/

/-- Embeds `PlugboardClient.add_action`: raises `ValueError` when the name is
already registered (before any mutation), otherwise assigns
`self.actions[name] = action`. -/
def add_action {α : Type} (actions : List (String × α)) (name : String) (a : α) :
    Except String (List (String × α)) :=
  if actions.any (fun kv => kv.1 == name) then
    Except.error ("Action " ++ name ++ " is already registered")
  else
    Except.ok (dictInsert actions name a)

/-- Embeds `PlugboardClient.add_actions`: iterates the given entries in order,
calling `add_action` on each; a raised `ValueError` propagates, leaving
the additions already made in place (the dict is mutated in place). -/
def add_actions {α : Type} (actions : List (String × α)) :
    List (String × α) → (List (String × α)) × Option String
  | [] => (actions, none)
  | (n, a) :: rest =>
    match add_action actions n a with
    | Except.ok acts => add_actions acts rest
    | Except.error e => (actions, some e)

/-! ## Wire envelope, client state, exceptions -/

/-- The outer wire envelope `{ref, topic, event, payload}`. -/
structure Frame where
  ref : Option String
  topic : String
  event : String
  payload : JValue

/-- Embeds `Service` (src/schemas/service.py): id, name and the two timestamps
(timestamps modelled as strings). -/
structure Service where
  id : Int
  name : String
  inserted_at : String
  updated_at : String

/-- Embeds `Token` (src/models/token.py): every field optional, defaulting to
`None`. -/
structure Token where
  id : Option Int := none
  context : Option String := none
  value : Option String := none
  service_id : Option Int := none
  inserted_at : Option String := none
  expires_at : Option String := none

/-- The mutable session state of `PlugboardClient`
(src/core/plugboard_client.py). -/
structure ClientState where
  service : Option Service
  token : Token
  num_consumers : Int
  connected : Bool

/-- The Python exception kinds distinguished by the `except` clauses of
`PlugboardClient.__loop` and `RequestEvent.run`.  `otherExc` stands for
any exception that is none of the named ones. -/
inductive PyExc where
  | keyError
  | validationError
  | connectionClosed
  | otherExc
  deriving Repr, DecidableEq

/-- Embeds `ActionResponse` (src/core/action_response.py). -/
structure ActionResponse where
  status_code : Int
  message : Option String := none
  fields : Option JValue := none

/-- Embeds `ActionResponse.model_dump()`: the response as a JSON dict. -/
def ActionResponse.model_dump (r : ActionResponse) : JValue :=
  JValue.obj
    [("status_code", JValue.num r.status_code),
     ("message", match r.message with | some m => JValue.str m | none => JValue.null),
     ("fields", match r.fields with | some v => v | none => JValue.null)]

/-! ## Pydantic payload validation

Constructing an event instance from the decoded message dict applies the
declared field types; a violation raises `ValidationError`.  The
decoders below embed the field declarations of the event classes under
src/events/ and the nested schemas they reference. -/

/-- Pydantic validation of `Service` from a JSON value. -/
def parseService (v : JValue) : Except PyExc Service :=
  match v with
  | JValue.obj kvs =>
    match dget kvs "id", dget kvs "name", dget kvs "inserted_at", dget kvs "updated_at" with
    | JValue.num i, JValue.str n, JValue.str ia, JValue.str ua =>
        Except.ok { id := i, name := n, inserted_at := ia, updated_at := ua }
    | _, _, _, _ => Except.error PyExc.validationError
  | _ => Except.error PyExc.validationError

/-- An optional string field: a string validates, `null` or absence
falls back to the `None` default. -/
def optStr (v : JValue) : Option String :=
  match v with
  | JValue.str s => some s
  | _ => none

/-- An optional integer field. -/
def optInt (v : JValue) : Option Int :=
  match v with
  | JValue.num n => some n
  | _ => none

/-- Pydantic validation of `Token` from a JSON value (all fields
optional). -/
def parseToken (v : JValue) : Except PyExc Token :=
  match v with
  | JValue.obj kvs =>
      Except.ok
        { id := optInt (dget kvs "id"),
          context := optStr (dget kvs "context"),
          value := optStr (dget kvs "value"),
          service_id := optInt (dget kvs "service_id"),
          inserted_at := optStr (dget kvs "inserted_at"),
          expires_at := optStr (dget kvs "expires_at") }
  | _ => Except.error PyExc.validationError

/-- The `phx_reply` payload, discriminated by `status`
(src/events/phx_reply_event.py): `PhxReplyOk` carries service, token and
consumer count, `PhxReplyError` carries the reason. -/
inductive ReplyPayload where
  | ok (service : Service) (token : Token) (num_consumers : Int)
  | error (reason : String)

/-- Pydantic validation of the `phx_reply` payload union. -/
def parseReplyPayload (v : JValue) : Except PyExc ReplyPayload :=
  match v with
  | JValue.obj kvs =>
    match dget kvs "status" with
    | JValue.str "ok" =>
      match dget kvs "response" with
      | JValue.obj r =>
        match parseService (dget r "service"), parseToken (dget r "token"),
              dget r "num_consumers" with
        | Except.ok svc, Except.ok tok, JValue.num n =>
            Except.ok (ReplyPayload.ok svc tok n)
        | _, _, _ => Except.error PyExc.validationError
      | _ => Except.error PyExc.validationError
    | JValue.str "error" =>
      match dget kvs "response" with
      | JValue.obj r =>
        match dget r "reason" with
        | JValue.str reason => Except.ok (ReplyPayload.error reason)
        | _ => Except.error PyExc.validationError
      | _ => Except.error PyExc.validationError
    | _ => Except.error PyExc.validationError
  | _ => Except.error PyExc.validationError

/-- The `request` payload `{action, fields, response_ref}`
(src/events/request_event.py); `response_ref` defaults to `None`. -/
structure RequestPayload where
  action : String
  fields : List (String × JValue)
  response_ref : Option String

/-- Pydantic validation of the `request` payload. -/
def parseRequestPayload (v : JValue) : Except PyExc RequestPayload :=
  match v with
  | JValue.obj kvs =>
    match dget kvs "action", dget kvs "fields" with
    | JValue.str a, JValue.obj fs =>
        Except.ok { action := a, fields := fs, response_ref := optStr (dget kvs "response_ref") }
    | _, _ => Except.error PyExc.validationError
  | _ => Except.error PyExc.validationError

/-- The `num_consumers` payload (src/events/consumers_connected_event.py). -/
def parseConsumersPayload (v : JValue) : Except PyExc Int :=
  match v with
  | JValue.obj kvs =>
    match dget kvs "num_consumers" with
    | JValue.num n => Except.ok n
    | _ => Except.error PyExc.validationError
  | _ => Except.error PyExc.validationError

/-! ## Request broker: `RequestEvent.run` (src/events/request_event.py) -/

/-- The behaviour of a registered action: constructing the action class
from the request fields and awaiting its `run(client, websocket)`,
yielding a response or raising. -/
abbrev ActionBehavior :=
  List (String × JValue) → ClientState → Except PyExc ActionResponse

/-- Embeds `RequestEvent.run`: resolve the action in `client.actions`,
construct and run it inside one `try` whose `except` arms map `KeyError`
to 404 with `Unknown action: <action>`, `ValidationError` to 400, and
any other `Exception` to 500; afterwards — unconditionally — send one
reply envelope on the same topic with event `response`, the serialized
response as payload, and `ref = payload.response_ref`.  Returns the
response and the list of frames sent. -/
def requestRun (actions : List (String × ActionBehavior)) (st : ClientState)
    (topic : String) (p : RequestPayload) : ActionResponse × List Frame :=
  let attempt : Except PyExc ActionResponse :=
    match dictGet? actions p.action with
    | none => Except.error PyExc.keyError
    | some behave => behave p.fields st
  let response : ActionResponse :=
    match attempt with
    | Except.ok r => r
    | Except.error PyExc.keyError =>
        { status_code := 404, message := some ("Unknown action: " ++ p.action) }
    | Except.error PyExc.validationError =>
        { status_code := 400,
          message := some "Invalid request. Please check the required fields and try again." }
    | Except.error _ =>
        { status_code := 500, message := some "Internal server error" }
  (response,
   [{ ref := p.response_ref, topic := topic, event := "response",
      payload := response.model_dump }])

/-! ## Event handlers and the receive loop -/

/-- An entry of the client's event/action dispatch dict as the loop uses
it: construct the event class from the raw frame (validation may raise)
and run it, yielding the updated client state, the frames sent, and the
returned response. -/
abbrev EventHandler :=
  Frame → ClientState → Except PyExc (ClientState × List Frame × ActionResponse)

/-- Embeds `PhxReplyEvent.run`: an error payload only returns a 400 response
carrying the reason — the client state is untouched; an ok payload
stores the reply service and consumer count and merges the server token
while keeping the locally supplied secret value. -/
def phxReplyRun (st : ClientState) (p : ReplyPayload) :
    ClientState × List Frame × ActionResponse :=
  match p with
  | ReplyPayload.error reason =>
      (st, [], { status_code := 400, message := some reason })
  | ReplyPayload.ok svc tok n =>
      ({ st with
          token := { tok with value := st.token.value },
          service := some svc,
          num_consumers := n },
       [],
       { status_code := 200 })

/-- The `phx_reply` dispatch entry: the event literal is `"phx_reply"`;
construction validates the payload union, then `PhxReplyEvent.run`
executes. -/
def phxReplyHandler : EventHandler := fun f st =>
  if f.event == "phx_reply" then
    match parseReplyPayload f.payload with
    | Except.ok p => Except.ok (phxReplyRun st p)
    | Except.error e => Except.error e
  else
    Except.error PyExc.validationError

/-- Embeds `ConsumerConnectedEvent.discriminator()` — the wire key the class
registers under (src/events/consumers_connected_event.py). -/
def consumerConnected_discriminator : String := "num_consumers"

/-- Embeds `ConsumerConnectedEvent.run`: store the consumer count; nothing is
sent. -/
def consumerConnectedRun (st : ClientState) (n : Int) :
    ClientState × List Frame × ActionResponse :=
  ({ st with num_consumers := n }, [], { status_code := 200 })

/-- The `ConsumerConnectedEvent` dispatch entry: the event literal is
`"num_consumers"`; construction validates the payload, then `run`
stores the count. -/
def consumerConnectedHandler : EventHandler := fun f st =>
  if f.event == consumerConnected_discriminator then
    match parseConsumersPayload f.payload with
    | Except.ok n => Except.ok (consumerConnectedRun st n)
    | Except.error e => Except.error e
  else
    Except.error PyExc.validationError

/-- The `RequestEvent` dispatch entry: the event literal is
`"request"`; construction validates the payload, then
`RequestEvent.run` executes (which never lets an action exception
escape). -/
def requestHandler (actions : List (String × ActionBehavior)) : EventHandler :=
  fun f st =>
    if f.event == "request" then
      match parseRequestPayload f.payload with
      | Except.ok p =>
          let rr := requestRun actions st f.topic p
          Except.ok (st, rr.2, rr.1)
      | Except.error e => Except.error e
    else
      Except.error PyExc.validationError

/-- One received message as the loop sees it: undecodable text
(`JSONDecodeError`), a decoded envelope, or a closed/aborted transport. -/
inductive Inbound where
  | malformed
  | closed
  | frame (f : Frame)

/-- One iteration of `PlugboardClient.__loop`: decode, look the event up
in `self.actions` (a miss raises `KeyError`), construct and run the
handler.  `JSONDecodeError`, `KeyError` and `ValidationError` are
logged and skipped; `ConnectionClosed`/`ConnectionAbortedError` clear
`connected`; any other exception is uncaught and crashes the loop
(returned as `Except.error`). -/
def loopStep (registry : List (String × EventHandler)) (st : ClientState)
    (msg : Inbound) : Except PyExc (ClientState × List Frame) :=
  match msg with
  | Inbound.malformed => Except.ok (st, [])
  | Inbound.closed => Except.ok ({ st with connected := false }, [])
  | Inbound.frame f =>
    match dictGet? registry f.event with
    | none => Except.ok (st, [])
    | some h =>
      match h f st with
      | Except.ok (st2, frames, _) => Except.ok (st2, frames)
      | Except.error PyExc.keyError => Except.ok (st, [])
      | Except.error PyExc.validationError => Except.ok (st, [])
      | Except.error PyExc.connectionClosed =>
          Except.ok ({ st with connected := false }, [])
      | Except.error e => Except.error e

/-! ## The `connect` guard under cooperative scheduling
(src/core/plugboard_client.py)

`connect` runs `if self.connected: return` and everything up to the
transport-opening `async with connect(...)` with no intervening await;
`self.connected = True` executes only after the open completes.  Each
invocation is therefore two atomic blocks separated by the open await,
and two invocations on the same instance interleave at that point. -/

/-- The shared connection-instance state seen by `connect`: the
`connected` flag and how many transports have been opened. -/
structure ConnectState where
  connected : Bool
  transports : Nat
  deriving Repr, DecidableEq

/-- The program counter of one `connect` invocation: before the guard,
resumed after the transport open, or finished. -/
inductive TaskPc where
  | start
  | opened
  | done
  deriving Repr, DecidableEq

/-- One `connect` invocation in flight: its program counter and whether
it returned early at the guard. -/
structure TaskState where
  pc : TaskPc
  returnedEarly : Bool
  deriving Repr, DecidableEq

/-- One atomic block of `connect`: at `start`, the guard returns early
when `connected` is set, otherwise the transport is opened (the await);
at `opened`, the invocation resumes and sets `connected := True`. -/
def connectStep (s : ConnectState) (t : TaskState) : ConnectState × TaskState :=
  match t.pc with
  | TaskPc.start =>
    if s.connected then
      (s, { pc := TaskPc.done, returnedEarly := true })
    else
      ({ s with transports := s.transports + 1 }, { t with pc := TaskPc.opened })
  | TaskPc.opened =>
      ({ s with connected := true }, { t with pc := TaskPc.done })
  | TaskPc.done => (s, t)

/-- Run two `connect` invocations on one fresh instance under an
explicit schedule: `false` steps the first task, `true` the second. -/
def runConnect2 (sched : List Bool) : ConnectState × TaskState × TaskState :=
  sched.foldl
    (fun acc pick =>
      let s := acc.1
      let a := acc.2.1
      let b := acc.2.2
      if pick then
        let r := connectStep s b
        (r.1, a, r.2)
      else
        let r := connectStep s a
        (r.1, r.2, b))
    ({ connected := false, transports := 0 },
     { pc := TaskPc.start, returnedEarly := false },
     { pc := TaskPc.start, returnedEarly := false })

/-! ## Concrete inputs used to exercise the definitions -/

/-- A client state as it stands right after `connect` set the flag:
fresh defaults, `connected = true`. -/
def st0 : ClientState :=
  { service := none, token := {}, num_consumers := 0, connected := true }

/-- An action whose `run()` raises a `KeyError` of its own. -/
def keyErrorAction : ActionBehavior := fun _ _ => Except.error PyExc.keyError

/-- An action whose `run()` raises a generic exception. -/
def crashingAction : ActionBehavior := fun _ _ => Except.error PyExc.otherExc

/-- The join-failure reply frame of the spec scenario:
`{"status":"error","response":{"reason":"bad token"}}`. -/
def replyErrFrame : Frame :=
  { ref := some "1", topic := "service", event := "phx_reply",
    payload := JValue.obj
      [("status", JValue.str "error"),
       ("response", JValue.obj [("reason", JValue.str "bad token")])] }

/-- The consumer-count frame of the spec scenario, with the spec's
event key: `{"event":"consumers_connected","payload":{"num_consumers":3}}`. -/
def consumersSpecFrame : Frame :=
  { ref := none, topic := "service", event := "consumers_connected",
    payload := JValue.obj [("num_consumers", JValue.num 3)] }

/-- A module listing whose middle module raises on import while its
neighbours load fine. -/
def modulesWithFailure : List (Except String (List PyClass)) :=
  [Except.ok [{ name := "A", base := some "ActionRunner", discOverride := none }],
   Except.error "boom",
   Except.ok [{ name := "B", base := some "ActionRunner", discOverride := none }]]

/-- A class whose direct declared base is the expected kind. -/
def fooClass : PyClass :=
  { name := "Foo", base := some "ActionRunner", discOverride := none }

/-- A class that reaches the base kind only through an intermediate
ancestor (its direct base is some other class). -/
def deepClass : PyClass :=
  { name := "Deep", base := some "Intermediate", discOverride := none }

/-- A module whose classes include a direct subclass of the base and a
class that reaches the base only through an intermediate ancestor. -/
def modulesDirect : List (Except String (List PyClass)) :=
  [Except.ok [fooClass, deepClass]]

/-! # Theorems -/

/-! ### Helper lemmas (shared) -/

theorem dictInsert_mem {α : Type} (P : String → α → Prop)
    (d : List (String × α)) (k : String) (v : α)
    (hd : ∀ kv ∈ d, P kv.1 kv.2) (hkv : P k v) :
    ∀ kv ∈ dictInsert d k v, P kv.1 kv.2 := by
  intro kv hmem
  unfold dictInsert at hmem
  by_cases hc : d.any (fun kv => kv.1 == k) = true
  · rw [if_pos hc] at hmem
    obtain ⟨kv0, hk0, heq⟩ := List.mem_map.mp hmem
    by_cases h0 : (kv0.1 == k) = true
    · rw [if_pos h0] at heq
      exact heq ▸ hkv
    · rw [if_neg h0] at heq
      exact heq ▸ hd kv0 hk0
  · rw [if_neg hc] at hmem
    rcases List.mem_append.mp hmem with h | h
    · exact hd kv h
    · have : kv = (k, v) := List.mem_singleton.mp h
      exact this ▸ hkv

theorem foldl_dictInsert_inv (kind : String) :
    ∀ (l : List PyClass) (acc : List (String × PyClass)),
      (∀ c ∈ l, c.base = some kind) →
      (∀ kv ∈ acc, kv.2.base = some kind ∧ kv.2.discKey = kv.1) →
      ∀ kv ∈ l.foldl (fun d c => dictInsert d c.discKey c) acc,
        kv.2.base = some kind ∧ kv.2.discKey = kv.1 := by
  intro l
  induction l with
  | nil => intro acc _ hacc; simpa using hacc
  | cons c cs ih =>
    intro acc hl hacc
    simp only [List.foldl_cons]
    exact ih (dictInsert acc c.discKey c)
      (fun x hx => hl x (List.mem_cons_of_mem _ hx))
      (dictInsert_mem (fun k v => v.base = some kind ∧ v.discKey = k)
        acc c.discKey c hacc ⟨hl c (List.mem_cons_self c cs), rfl⟩)

theorem discoverAux_inv (kind : String) :
    ∀ (modules : List (Except String (List PyClass)))
      (acc reg : List (String × PyClass)),
      (∀ kv ∈ acc, kv.2.base = some kind ∧ kv.2.discKey = kv.1) →
      discoverAux acc modules kind = Except.ok reg →
      ∀ kv ∈ reg, kv.2.base = some kind ∧ kv.2.discKey = kv.1 := by
  intro modules
  induction modules with
  | nil =>
    intro acc reg hacc h
    simp only [discoverAux] at h
    cases h
    exact hacc
  | cons m rest ih =>
    intro acc reg hacc h
    cases m with
    | error e => simp [discoverAux] at h
    | ok cs =>
      simp only [discoverAux] at h
      refine ih _ reg ?_ h
      refine foldl_dictInsert_inv kind _ acc ?_ hacc
      intro c hc
      have := (List.mem_filter.mp hc).2
      simpa using this

theorem discoverAux_error (kind e : String)
    (post : List (Except String (List PyClass))) :
    ∀ (pre : List (Except String (List PyClass)))
      (acc : List (String × PyClass)),
      (∀ m ∈ pre, ∃ cs, m = Except.ok cs) →
      discoverAux acc (pre ++ Except.error e :: post) kind = Except.error e := by
  intro pre
  induction pre with
  | nil => intro acc _; simp [discoverAux]
  | cons m pre2 ih =>
    intro acc hpre
    obtain ⟨cs, hcs⟩ := hpre m (List.mem_cons_self m pre2)
    subst hcs
    simp only [List.cons_append, discoverAux]
    exact ih _ (fun m hm => hpre m (List.mem_cons_of_mem _ hm))

theorem parseRequestPayload_error (v : JValue) (e : PyExc)
    (h : parseRequestPayload v = Except.error e) : e = PyExc.validationError := by
  unfold parseRequestPayload at h
  split at h
  · split at h
    · cases h
    · cases h; rfl
  · cases h; rfl

/-! ### C8 — descriptor default-key presence -/

theorem field_info_eq (fs : List (String × JValue)) :
    field_info fs =
      if dcontains fs "default" = true then
        [("type", dget fs "type"), ("description", dget fs "description"),
         ("default", dget fs "default")]
      else
        [("type", dget fs "type"), ("description", dget fs "description")] := by
  unfold field_info
  by_cases hd : dcontains fs "default" = true
  · rw [if_pos hd, hd]
    simp [List.filter_cons]
  · have hd' : dcontains fs "default" = false := by simpa using hd
    rw [if_neg hd, hd']
    simp [List.filter_cons,
      (by decide : (("type" : String) != "default") = true),
      (by decide : (("description" : String) != "default") = true),
      (by decide : (("default" : String) != "default") = false)]

/-- C8: for every declared field that is not a nested capability
(`"$ref"`-free pydantic schema), the emitted entry always carries
`type` and `description`, carries the `default` key exactly when the
field schema declares one, and when present the default value is
passed through unchanged — so a required field (no key) is
distinguishable from a field defaulting to `null`. -/
theorem C8_field_entry_default_iff (field_schema : List (String × JValue))
    (nested : Option (String × String × JValue))
    (h : dcontains field_schema "$ref" = false) :
    dcontains (field_entry field_schema nested) "type" = true
  ∧ dcontains (field_entry field_schema nested) "description" = true
  ∧ dcontains (field_entry field_schema nested) "default" = dcontains field_schema "default"
  ∧ (dcontains field_schema "default" = true →
      dget (field_entry field_schema nested) "default" = dget field_schema "default") := by
  have hfe : field_entry field_schema nested = field_info field_schema := by
    cases nested with
    | none => rfl
    | some t => simp [field_entry, h]
  rw [hfe, field_info_eq]
  by_cases hd : dcontains field_schema "default" = true
  · rw [if_pos hd, hd]
    refine ⟨?_, ?_, ?_, fun _ => ?_⟩ <;>
      simp [dcontains, dget, List.any_cons, List.find?,
        (by decide : (("type" : String) == "type") = true),
        (by decide : (("description" : String) == "description") = true),
        (by decide : (("default" : String) == "default") = true),
        (by decide : (("type" : String) == "default") = false),
        (by decide : (("description" : String) == "default") = false)]
  · have hd' : dcontains field_schema "default" = false := by simpa using hd
    rw [if_neg hd, hd']
    refine ⟨?_, ?_, ?_, fun hcon => ?_⟩
    · simp [dcontains, List.any_cons,
        (by decide : (("type" : String) == "type") = true)]
    · simp [dcontains, List.any_cons,
        (by decide : (("description" : String) == "description") = true)]
    · simp [dcontains, List.any_cons,
        (by decide : (("type" : String) == "default") = false),
        (by decide : (("description" : String) == "default") = false)]
    · exact absurd hcon (by decide)

/-- C8 witness: a required string field emits no `default` key; the
same field with a declared `null` default emits `("default", null)`. -/
theorem C8_witness :
    dcontains (field_entry [("type", JValue.str "string"),
      ("description", JValue.str "d")] none) "default" = false
  ∧ dcontains (field_entry [("type", JValue.str "string"),
      ("description", JValue.str "d"), ("default", JValue.null)] none) "default" = true
  ∧ dget (field_entry [("type", JValue.str "string"),
      ("description", JValue.str "d"), ("default", JValue.null)] none) "default"
      = JValue.null := by
  refine ⟨?_, ?_, ?_⟩
  · exact (C8_field_entry_default_iff [("type", JValue.str "string"),
      ("description", JValue.str "d")] none (by decide)).2.2.1.trans (by decide)
  · exact (C8_field_entry_default_iff [("type", JValue.str "string"),
      ("description", JValue.str "d"), ("default", JValue.null)] none
      (by decide)).2.2.1.trans (by decide)
  · exact ((C8_field_entry_default_iff [("type", JValue.str "string"),
      ("description", JValue.str "d"), ("default", JValue.null)] none
      (by decide)).2.2.2 (by decide)).trans rfl

/-! ### C10 — add_action / add_actions -/

/-- C10: `add_action` with an already-registered name raises
`ValueError` (no registry is produced, the raise precedes the
assignment); with a fresh name it appends exactly the one binding,
leaving every other key's lookup unchanged; `add_actions` registers
entries in iteration order and stops at the first duplicate, with the
earlier additions still in place. -/
theorem C10_add_action_spec {α : Type} :
    (∀ (acts : List (String × α)) (name : String) (a : α),
        acts.any (fun kv => kv.1 == name) = true →
        add_action acts name a =
          Except.error ("Action " ++ name ++ " is already registered"))
  ∧ (∀ (acts : List (String × α)) (name : String) (a : α),
        acts.any (fun kv => kv.1 == name) = false →
        add_action acts name a = Except.ok (acts ++ [(name, a)]) ∧
        dictGet? (acts ++ [(name, a)]) name = some a ∧
        ∀ k : String, (k == name) = false →
          dictGet? (acts ++ [(name, a)]) k = dictGet? acts k)
  ∧ (∀ (acts pre : List (String × α)) (d : String) (a : α)
        (rest : List (String × α)),
        (∀ q ∈ pre, acts.any (fun kv => kv.1 == q.1) = false) →
        (pre.map Prod.fst).Nodup →
        (acts ++ pre).any (fun kv => kv.1 == d) = true →
        add_actions acts (pre ++ (d, a) :: rest) =
          (acts ++ pre, some ("Action " ++ d ++ " is already registered"))) := by
  have hfresh : ∀ (acts : List (String × α)) (name : String) (a : α),
      acts.any (fun kv => kv.1 == name) = false →
      add_action acts name a = Except.ok (acts ++ [(name, a)]) := by
    intro acts name a h
    unfold add_action dictInsert
    rw [if_neg (by simp [h]), if_neg (by simp [h])]
  refine ⟨?_, ?_, ?_⟩
  · intro acts name a h
    unfold add_action
    rw [if_pos h]
  · intro acts name a h
    refine ⟨hfresh acts name a h, ?_, ?_⟩
    · have hnone : acts.find? (fun kv => kv.1 == name) = none := by
        rw [List.find?_eq_none]
        intro x hx
        simp only [List.any_eq_false] at h
        simpa using h x hx
      simp [dictGet?, List.find?_append, hnone]
    · intro k hk
      have : List.find? (fun kv => kv.1 == k) [(name, a)] = none := by
        simp only [List.find?_singleton]
        rw [if_neg]
        simp only [BEq.comm (a := name) (b := k)] at hk ⊢
        simp [hk]
      simp [dictGet?, List.find?_append, this]
  · intro acts pre
    induction pre generalizing acts with
    | nil =>
      intro d a rest _ _ hd
      simp only [List.append_nil] at hd
      simp only [List.nil_append, add_actions, add_action, if_pos hd,
        List.append_nil]
    | cons q pre2 ih =>
      intro d a rest hq hnd hd
      obtain ⟨n, b⟩ := q
      have hn : acts.any (fun kv => kv.1 == n) = false :=
        hq (n, b) (List.mem_cons_self (n, b) pre2)
      obtain ⟨hnotin, hnd2⟩ : (∀ x, (n, x) ∉ pre2) ∧ (pre2.map Prod.fst).Nodup := by
        simpa using hnd
      have step : add_actions acts (((n, b) :: pre2) ++ (d, a) :: rest) =
          add_actions (acts ++ [(n, b)]) (pre2 ++ (d, a) :: rest) := by
        simp only [List.cons_append, add_actions, hfresh acts n b hn]
        rfl
      rw [step]
      have hq2 : ∀ x ∈ pre2, (acts ++ [(n, b)]).any (fun kv => kv.1 == x.1) = false := by
        intro x hx
        have h1 : acts.any (fun kv => kv.1 == x.1) = false :=
          hq x (List.mem_cons_of_mem _ hx)
        have h2 : x.1 ≠ n := by
          intro hcon
          apply hnotin x.2
          rw [← hcon]
          simpa using hx
        simp [List.any_append, h1, Ne.symm h2]
      have hd2 : ((acts ++ [(n, b)]) ++ pre2).any (fun kv => kv.1 == d) = true := by
        simpa [List.any_append, Bool.or_assoc] using hd
      have := ih (acts ++ [(n, b)]) d a rest hq2 hnd2 hd2
      rw [this]
      simp

/-- C10 witness: duplicate name rejected; fresh name appended; a batch
stops at the first duplicate keeping the earlier addition. -/
theorem C10_witness :
    add_action [("a", 1)] "a" 2 =
      Except.error ("Action " ++ "a" ++ " is already registered")
  ∧ add_action [("a", 1)] "b" 2 = Except.ok [("a", 1), ("b", 2)]
  ∧ add_actions [("a", 1)] [("b", 2), ("a", 3)] =
      ([("a", 1), ("b", 2)],
        some ("Action " ++ "a" ++ " is already registered")) := by
  refine ⟨?_, ?_, ?_⟩
  · exact (C10_add_action_spec (α := Nat)).1 [("a", 1)] "a" 2 (by decide)
  · exact ((C10_add_action_spec (α := Nat)).2.1 [("a", 1)] "b" 2 (by decide)).1
  · exact (C10_add_action_spec (α := Nat)).2.2 [("a", 1)] [("b", 2)] "a" 3 []
      (by decide) (by decide) (by decide)

/-! ### C6 — discovery collects direct subclasses under their discriminator -/

/-- C6: every entry of a successfully discovered registry is a class
whose direct declared supertype equals the requested base kind (a class
reaching the base only transitively is never included), its key is the
class's discriminator (its own name unless overridden), and therefore
`registry[discriminator(C)] = C`. -/
theorem C6_discover_sound (modules : List (Except String (List PyClass)))
    (kind : String) (reg : List (String × PyClass)) (k : String) (v : PyClass)
    (hok : discover modules kind = Except.ok reg)
    (hget : dictGet? reg k = some v) :
    v.base = some kind ∧ v.discKey = k ∧ dictGet? reg v.discKey = some v := by
  have haux : discoverAux [] modules kind = Except.ok reg := by
    unfold discover at hok
    by_cases hv : valid_action_types.any (fun x => x == kind) = true
    · rwa [if_pos hv] at hok
    · rw [if_neg hv] at hok; cases hok
  have hinv := discoverAux_inv kind modules [] reg (by intro kv h; cases h) haux
  unfold dictGet? at hget
  cases hfind : List.find? (fun kv => kv.1 == k) reg with
  | none => rw [hfind] at hget; cases hget
  | some kv =>
    rw [hfind] at hget
    have hv2 : kv.2 = v := by simpa using hget
    have hmem := List.mem_of_find?_eq_some hfind
    have hpred : kv.1 = k := by
      have := List.find?_some hfind
      simpa using this
    obtain ⟨hb, hdk⟩ := hinv kv hmem
    subst hv2
    refine ⟨hb, hpred ▸ hdk, ?_⟩
    rw [hdk, hpred]
    unfold dictGet?
    rw [hfind]
    rfl

/-- C6 witness: discovering a module with a direct subclass `Foo` and a
transitive-only descendant `Deep` yields the registry keyed by `Foo`,
and the registry invariant holds at that entry. -/
theorem C6_witness :
    discover modulesDirect "ActionRunner" = Except.ok [("Foo", fooClass)]
  ∧ (fooClass.base = some "ActionRunner"
     ∧ fooClass.discKey = "Foo"
     ∧ dictGet? [("Foo", fooClass)] fooClass.discKey = some fooClass) := by
  refine ⟨rfl, ?_⟩
  exact C6_discover_sound modulesDirect "ActionRunner" [("Foo", fooClass)]
    "Foo" fooClass rfl rfl

/-! ### C7 — a failing module aborts discovery -/

/-- C7 counterexample: with a loadable module on each side of a failing
one, `discover` raises the import failure instead of skipping it — no
registry is returned, so the class `B` from the later module does not
appear anywhere. -/
theorem C7_counterexample :
    discover modulesWithFailure "ActionRunner" = Except.error "boom" := rfl

/-- C7 (amended): a module import failure propagates out of `discover`:
whatever loadable modules precede or follow it, the call aborts with
that error and returns no registry. -/
theorem C7_discover_error_propagates
    (pre post : List (Except String (List PyClass))) (e kind : String)
    (hkind : valid_action_types.any (fun x => x == kind) = true)
    (hpre : ∀ m ∈ pre, ∃ cs, m = Except.ok cs) :
    discover (pre ++ Except.error e :: post) kind = Except.error e := by
  unfold discover
  rw [if_pos hkind]
  exact discoverAux_error kind e post pre [] hpre

/-- C7 witness: the propagation theorem applied to the concrete failing
listing. -/
theorem C7_witness :
    discover ([Except.ok [fooClass]] ++ Except.error "boom" ::
        [Except.ok [deepClass]]) "ActionRunner" = Except.error "boom" := by
  refine C7_discover_error_propagates _ _ "boom" "ActionRunner" (by decide) ?_
  intro m hm
  refine ⟨[fooClass], ?_⟩
  simpa using hm

/-! ### C2 — the broker always sends exactly one reply -/

/-- C2 counterexample: a request whose `response_ref` is null still
produces an outbound frame (the send is unconditional), with a null
`ref` — the claimed fire-and-forget path does not exist. -/
theorem C2_counterexample :
    ((requestRun [] st0 "svc"
        { action := "ping", fields := [], response_ref := none }).2).length = 1
  ∧ ((requestRun [] st0 "svc"
        { action := "ping", fields := [], response_ref := none }).2).map Frame.ref
      = [none] := ⟨rfl, rfl⟩

/-- C2 (amended): handling a request always sends exactly one reply
envelope, on the request's topic, with event `response`, the serialized
result as payload, and `ref` equal to the request's `response_ref`
unchanged — `null` when it was absent. -/
theorem C2_reply_always_sent (actions : List (String × ActionBehavior))
    (st : ClientState) (topic : String) (p : RequestPayload) :
    (requestRun actions st topic p).2 =
      [{ ref := p.response_ref, topic := topic, event := "response",
         payload := (requestRun actions st topic p).1.model_dump }] := rfl

/-! ### C3 — unknown action yields 404 with the correlation id intact -/

/-- C3: a request whose action is absent from the actions registry
produces the result `{404, "Unknown action: <action>"}`, and the single
reply frame carries the request's `response_ref` as its `ref`. -/
theorem C3_unknown_action_404 (actions : List (String × ActionBehavior))
    (st : ClientState) (topic : String) (p : RequestPayload)
    (h : dictGet? actions p.action = none) :
    (requestRun actions st topic p).1 =
      { status_code := 404, message := some ("Unknown action: " ++ p.action),
        fields := none }
  ∧ (requestRun actions st topic p).2.map Frame.ref = [p.response_ref] := by
  unfold requestRun
  rw [h]
  exact ⟨rfl, rfl⟩

/-- C3 witness: the empty registry at the spec scenario request. -/
theorem C3_witness :
    dictGet? ([] : List (String × ActionBehavior)) "NoSuchAction" = none
  ∧ (requestRun [] st0 "svc"
      { action := "NoSuchAction", fields := [], response_ref := some "r1" }).1 =
      { status_code := 404,
        message := some ("Unknown action: " ++ "NoSuchAction"), fields := none }
  ∧ (requestRun [] st0 "svc"
      { action := "NoSuchAction", fields := [], response_ref := some "r1" }).2.map
        Frame.ref = [some "r1"] := by
  refine ⟨rfl, ?_, ?_⟩
  · exact (C3_unknown_action_404 [] st0 "svc"
      { action := "NoSuchAction", fields := [], response_ref := some "r1" } rfl).1
  · exact (C3_unknown_action_404 [] st0 "svc"
      { action := "NoSuchAction", fields := [], response_ref := some "r1" } rfl).2

/-! ### C4 — exceptions raised by an action's run() -/

/-- C4 counterexample: an action whose `run()` raises a `KeyError` is
answered with 404 `Unknown action: boom` — not the claimed 500 — because
the broker's single `try` block cannot tell a `KeyError` raised inside
`run()` from a registry miss. -/
theorem C4_counterexample :
    (requestRun [("boom", keyErrorAction)] st0 "svc"
        { action := "boom", fields := [], response_ref := some "r1" }).1.status_code
      = 404
  ∧ ((requestRun [("boom", keyErrorAction)] st0 "svc"
        { action := "boom", fields := [], response_ref := some "r1" }).1.status_code
      = 500 → False) := by
  exact ⟨rfl, fun hcon => by cases hcon⟩

/-- C4 (amended): an exception raised during a found-and-constructed
action's `run()` other than `KeyError` and `ValidationError` is caught
and converted to `{500, "Internal server error"}`; and whatever the
action raises, a request frame never crashes the receive loop — the
dispatch returns normally with the client state intact. -/
theorem C4_run_exception_handling :
    (∀ (actions : List (String × ActionBehavior)) (st : ClientState)
        (topic : String) (p : RequestPayload) (b : ActionBehavior) (e : PyExc),
        dictGet? actions p.action = some b →
        b p.fields st = Except.error e →
        e ≠ PyExc.keyError → e ≠ PyExc.validationError →
        (requestRun actions st topic p).1 =
          { status_code := 500, message := some "Internal server error",
            fields := none })
  ∧ (∀ (registry : List (String × EventHandler)) (st : ClientState) (f : Frame)
        (actions : List (String × ActionBehavior)),
        dictGet? registry f.event = some (requestHandler actions) →
        ∃ frames, loopStep registry st (Inbound.frame f) = Except.ok (st, frames)) := by
  constructor
  · intro actions st topic p b e hb he hk hv
    cases e with
    | keyError => exact absurd rfl hk
    | validationError => exact absurd rfl hv
    | connectionClosed => simp [requestRun, hb, he]
    | otherExc => simp [requestRun, hb, he]
  · intro registry st f actions hlook
    by_cases hev : (f.event == "request") = true
    · cases hp : parseRequestPayload f.payload with
      | ok p =>
        refine ⟨(requestRun actions st f.topic p).2, ?_⟩
        simp only [loopStep]
        rw [hlook]
        simp only [requestHandler]
        rw [if_pos hev, hp]
      | error e =>
        have he := parseRequestPayload_error f.payload e hp
        subst he
        refine ⟨[], ?_⟩
        simp only [loopStep]
        rw [hlook]
        simp only [requestHandler]
        rw [if_pos hev, hp]
    · refine ⟨[], ?_⟩
      simp only [loopStep]
      rw [hlook]
      simp only [requestHandler]
      rw [if_neg hev]

/-- C4 witness: a generic exception in `run()` answered with 500, and
the loop stepping over that request frame without crashing. -/
theorem C4_witness :
    (requestRun [("boom", crashingAction)] st0 "svc"
        { action := "boom", fields := [], response_ref := some "r1" }).1 =
      { status_code := 500, message := some "Internal server error",
        fields := none }
  ∧ ∃ frames,
      loopStep [("request", requestHandler [("boom", crashingAction)])] st0
        (Inbound.frame
          { ref := none, topic := "svc", event := "request",
            payload := JValue.obj
              [("action", JValue.str "boom"), ("fields", JValue.obj [])] })
        = Except.ok (st0, frames) := by
  constructor
  · exact C4_run_exception_handling.1 [("boom", crashingAction)] st0 "svc"
      { action := "boom", fields := [], response_ref := some "r1" }
      crashingAction PyExc.otherExc rfl rfl
      (fun hcon => by cases hcon) (fun hcon => by cases hcon)
  · exact C4_run_exception_handling.2
      [("request", requestHandler [("boom", crashingAction)])] st0
      { ref := none, topic := "svc", event := "request",
        payload := JValue.obj
          [("action", JValue.str "boom"), ("fields", JValue.obj [])] }
      [("boom", crashingAction)] rfl

/-! ### C5 — an error join reply does not disconnect -/

/-- C5 counterexample: dispatching the spec's error join reply
`{"status":"error","response":{"reason":"bad token"}}` leaves the client
state exactly as it was — in particular `connected` is still `true`, so
the loop keeps running; the claimed transition to DISCONNECTED does not
happen. -/
theorem C5_counterexample :
    loopStep [("phx_reply", phxReplyHandler)] st0 (Inbound.frame replyErrFrame)
      = Except.ok (st0, [])
  ∧ st0.connected = true := ⟨rfl, rfl⟩

/-- C5 (amended): `PhxReplyEvent.run` on an error payload only returns a
400 result whose message surfaces the failure reason; it mutates
nothing, and the loop dispatch of such a frame returns the state
unchanged (the `connected` flag keeps its previous value, so the loop
does not stop). -/
theorem C5_error_reply_behavior :
    (∀ (st : ClientState) (reason : String),
        phxReplyRun st (ReplyPayload.error reason) =
          (st, [], { status_code := 400, message := some reason, fields := none }))
  ∧ (∀ (registry : List (String × EventHandler)) (st : ClientState) (f : Frame)
        (reason : String),
        dictGet? registry f.event = some phxReplyHandler →
        f.event = "phx_reply" →
        parseReplyPayload f.payload = Except.ok (ReplyPayload.error reason) →
        loopStep registry st (Inbound.frame f) = Except.ok (st, [])) := by
  constructor
  · intro st reason
    rfl
  · intro registry st f reason hlook hev hp
    simp only [loopStep]
    rw [hlook]
    simp only [phxReplyHandler, hev]
    simp [hp, phxReplyRun]

/-- C5 witness: the concrete bad-token reply frame dispatched against a
registry holding the `phx_reply` handler. -/
theorem C5_witness :
    phxReplyRun st0 (ReplyPayload.error "bad token") =
      (st0, [], { status_code := 400, message := some "bad token", fields := none })
  ∧ loopStep [("phx_reply", phxReplyHandler)] st0 (Inbound.frame replyErrFrame)
      = Except.ok (st0, []) := by
  constructor
  · exact C5_error_reply_behavior.1 st0 "bad token"
  · exact C5_error_reply_behavior.2 [("phx_reply", phxReplyHandler)] st0
      replyErrFrame "bad token" rfl rfl rfl

/-! ### C9 — the consumer-count event's wire key -/

/-- C9 counterexample: the handler's discriminator — the key it is
registered under — is `"num_consumers"`, not `"consumers_connected"`;
dispatching the spec's `{"event":"consumers_connected",...}` frame
against a registry keyed by the discriminator finds no handler, leaves
`num_consumers` at 0 instead of setting it to 3, and the frame is
silently skipped. -/
theorem C9_counterexample :
    consumerConnected_discriminator = "num_consumers"
  ∧ (consumerConnected_discriminator = "consumers_connected" → False)
  ∧ loopStep [(consumerConnected_discriminator, consumerConnectedHandler)] st0
      (Inbound.frame consumersSpecFrame) = Except.ok (st0, [])
  ∧ st0.num_consumers = 0 := by
  refine ⟨rfl, by decide, rfl, rfl⟩

/-- C9 (amended): the consumers-connected handler is registered under
the wire discriminator `"num_consumers"`; handling an inbound
`{"event":"num_consumers","payload":{"num_consumers":n}}` frame sets
`num_consumers` to `n` and produces no outbound frame. -/
theorem C9_num_consumers_event (registry : List (String × EventHandler))
    (st : ClientState) (r : Option String) (topic : String) (n : Int)
    (h : dictGet? registry "num_consumers" = some consumerConnectedHandler) :
    loopStep registry st
      (Inbound.frame
        { ref := r, topic := topic, event := "num_consumers",
          payload := JValue.obj [("num_consumers", JValue.num n)] })
      = Except.ok ({ st with num_consumers := n }, []) := by
  simp only [loopStep]
  rw [h]
  rfl

/-- C9 witness: the spec scenario with the code's actual event key sets
the count to 3 with no outbound frame. -/
theorem C9_witness :
    loopStep [("num_consumers", consumerConnectedHandler)] st0
      (Inbound.frame
        { ref := none, topic := "service", event := "num_consumers",
          payload := JValue.obj [("num_consumers", JValue.num 3)] })
      = Except.ok ({ st0 with num_consumers := 3 }, []) := by
  exact C9_num_consumers_event [("num_consumers", consumerConnectedHandler)]
    st0 none "service" 3 rfl

/-! ### C1 — connect idempotence -/

/-- C1 counterexample: interleaving two `connect` invocations on one
fresh instance so that the second runs its guard while the first is
still CONNECTING (transport opened, `connected` not yet set) opens two
transports, and the second call did not return early — the guard only
protects the ACTIVE state. -/
theorem C1_counterexample :
    (runConnect2 [false, true]).1.transports = 2
  ∧ (runConnect2 [false, true]).2.2.returnedEarly = false := by
  decide

/-- C1 (amended): the guard is effective exactly against the ACTIVE
state: a `connect` invocation that runs its guard while `connected` is
already set returns immediately, opening no transport; in particular a
second invocation scheduled only after the first has finished opening
and setting `connected` leaves the transport count at one. -/
theorem C1_connect_guard (s : ConnectState) (t : TaskState)
    (hc : s.connected = true) (hp : t.pc = TaskPc.start) :
    connectStep s t = (s, { pc := TaskPc.done, returnedEarly := true })
  ∧ (runConnect2 [false, false, true]).1.transports = 1 := by
  constructor
  · unfold connectStep
    rw [hp, hc]
    rfl
  · decide

/-- C1 witness: the guard theorem at an ACTIVE state. -/
theorem C1_witness :
    connectStep { connected := true, transports := 1 }
        { pc := TaskPc.start, returnedEarly := false } =
      ({ connected := true, transports := 1 },
       { pc := TaskPc.done, returnedEarly := true })
  ∧ (runConnect2 [false, false, true]).1.transports = 1 := by
  exact C1_connect_guard { connected := true, transports := 1 }
    { pc := TaskPc.start, returnedEarly := false } rfl rfl

end VeraPy
